import Mathlib

/-!
Shallow embedding of src/typeclasses/scripts/gametime.py.

Python floats are idealized as rationals (exact arithmetic). The module
keeps global mutable state (SERVER_RUNTIME, SERVER_STARTTIME, TIMEFACTOR)
plus two durable stores: the script attribute store (keys run_time and
up_time) and a single-line backup file. The state record GTState carries
all of these; the current wall-clock reading time() is passed explicitly
as a parameter named now. The backup file and the attribute value are
carried as already-parsed numbers: Option means the read-and-parse either
produced a value or failed (any failure is caught and logged in the
source, leaving the state unchanged).
-/

/-- Python int() applied to a non-negative float: truncation, which for
non-negative rationals is the floor, taken into Nat. -/
def truncNat (q : ℚ) : ℕ := q.floor.toNat

/-- The loop of _format after the initial seconds = int(seconds) cast:
for each divisor append seconds / divisor (Python 2 integer division on
ints) and replace seconds by seconds % divisor; finally append the
remaining seconds. -/
def formatLoop : ℕ → List ℕ → List ℕ
  | s, [] => [s]
  | s, d :: ds => s / d :: formatLoop (s % d) ds

/-- _format(seconds, *divisors) from gametime.py: truncate the seconds to
an integer, then run the progressive-division loop. -/
def _format (seconds : ℚ) (divisors : List ℕ) : List ℕ :=
  formatLoop (truncNat seconds) divisors

/-- The remaining seconds after the first i progressive divisions: fold
the remainder operation over the first i divisors. -/
def residueAfter (s : ℕ) (ds : List ℕ) (i : ℕ) : ℕ :=
  (ds.take i).foldl (fun a d => a % d) s

/-- Modelled from the claim text for comparison with _format: a tuple of
length n+1 whose i-th element is the integer quotient of progressively
dividing the truncated seconds by the i-th divisor (the remainder
carrying to the next divisor) and whose final element is the remaining
seconds. -/
def formatSpec (s : ℕ) (ds : List ℕ) : List ℕ :=
  ((List.range ds.length).map fun i => residueAfter s ds i / ds.getD i 0)
    ++ [residueAfter s ds ds.length]

/-- The weighted sum of a formatted tuple: each quotient times its unit
size, the final remainder times 1. -/
def weightedSum : List ℕ → List ℕ → ℕ
  | [], r :: _ => r
  | [], [] => 0
  | _ :: _, [] => 0
  | d :: ds, q :: qs => q * d + weightedSum ds qs

/-- Game-time units from gametime.py: MIN = 60. -/
def MIN : ℕ := 60

/-- HOUR = MIN * 60. -/
def HOUR : ℕ := MIN * 60

/-- DAY = HOUR * 24. -/
def DAY : ℕ := HOUR * 24

/-- WEEK = DAY * 7. -/
def WEEK : ℕ := DAY * 7

/-- MONTH = WEEK * 4. -/
def MONTH : ℕ := WEEK * 4

/-- YEAR = MONTH * 12. -/
def YEAR : ℕ := MONTH * 12

/-- The real-world divisor list used by runtime, uptime and the
formatted branch of gametime_to_realtime: year, month, week, day, hour,
minute in calendar-average real seconds. -/
def realDivisors : List ℕ := [31536000, 2628000, 604800, 86400, 3600, 60]

/-- The game-unit divisor list used by gametime and the formatted branch
of realtime_to_gametime. -/
def gameDivisors : List ℕ := [YEAR, MONTH, WEEK, DAY, HOUR, MIN]

/-- The result of an access function: a plain number when format is
False, a formatted tuple when format is True. -/
inductive TimeResult where
  | num : ℚ → TimeResult
  | tup : List ℕ → TimeResult
deriving DecidableEq

/-- The in-memory and durable state of the gametime module:
SERVER_RUNTIME, SERVER_STARTTIME and TIMEFACTOR are the module globals;
attr_run_time and attr_up_time are the attribute-store values under keys
run_time and up_time; backup is the value recovered by reading the
backup file and parsing the last digit-starting line (Option.none when
the read or parse fails). -/
structure GTState where
  server_runtime : ℚ
  server_starttime : ℚ
  timefactor : ℚ
  attr_run_time : ℚ
  attr_up_time : ℚ
  backup : Option ℚ
deriving DecidableEq

/-- The module-level initialization SERVER_RUNTIME = 0.0. -/
def SERVER_RUNTIME_init : ℚ := 0

/-- The unformatted value computed by runtime():
SERVER_RUNTIME + (time() - SERVER_STARTTIME). -/
def runtimeVal (st : GTState) (now : ℚ) : ℚ :=
  st.server_runtime + (now - st.server_starttime)

/-- The unformatted value computed by uptime(): time() - SERVER_STARTTIME. -/
def uptimeVal (st : GTState) (now : ℚ) : ℚ :=
  now - st.server_starttime

/-- runtime(format) from gametime.py. -/
def runtime (st : GTState) (now : ℚ) (format : Bool) : TimeResult :=
  if format then TimeResult.tup (_format (runtimeVal st now) realDivisors)
  else TimeResult.num (runtimeVal st now)

/-- uptime(format) from gametime.py. -/
def uptime (st : GTState) (now : ℚ) (format : Bool) : TimeResult :=
  if format then TimeResult.tup (_format (uptimeVal st now) realDivisors)
  else TimeResult.num (uptimeVal st now)

/-- gametime(format) from gametime.py: runtime() * TIMEFACTOR. -/
def gametime (st : GTState) (now : ℚ) (format : Bool) : TimeResult :=
  if format then TimeResult.tup (_format (runtimeVal st now * st.timefactor) gameDivisors)
  else TimeResult.num (runtimeVal st now * st.timefactor)

/-- GameTime.at_start: set SERVER_RUNTIME to the attribute-store
run_time value, then, if the backup file yields a parsed last_time and
SERVER_RUNTIME < last_time, raise SERVER_RUNTIME to last_time. A failed
backup read or parse is caught and leaves SERVER_RUNTIME as the
attribute value. -/
def at_start (st : GTState) : GTState :=
  let r := st.attr_run_time
  let r2 := match st.backup with
    | some last_time => if r < last_time then last_time else r
    | none => r
  { st with server_runtime := r2 }

/-- The final check of GameTime.at_repeat: if SERVER_RUNTIME < 1000,
re-run at_start, otherwise leave the state alone. -/
def at_repeat_check (st : GTState) : GTState :=
  if st.server_runtime < 1000 then at_start st else st

/-- The attribute-store writes at the top of GameTime.at_repeat: set
run_time to runtime() and up_time to uptime(). -/
def tick_write (st : GTState) (now : ℚ) : GTState :=
  { st with attr_run_time := runtimeVal st now,
            attr_up_time := uptimeVal st now }

/-- GameTime.at_repeat: first write runtime() and uptime() to the
attribute store, then run the plausibility check on the updated state. -/
def at_repeat (st : GTState) (now : ℚ) : GTState :=
  at_repeat_check (tick_write st now)

/-- The observable contents of the backup file: missing (opening it for
update raises), empty (readline returns an empty string), a first line
that float() cannot parse, or a single stored line holding the value v
(the format the module itself writes). -/
inductive BackupFile where
  | missing : BackupFile
  | empty : BackupFile
  | garbage : BackupFile
  | line : ℚ → BackupFile
deriving DecidableEq

/-- The backup value at_start recovers from the file: the parsed last
digit-starting line, absent when the file is missing, empty or
unparseable. -/
def readBackup : BackupFile → Option ℚ
  | BackupFile.line v => some v
  | _ => none

/-- The file step of save(): open the file for update (raising, hence
changing nothing, when it is missing), read the first line, and if it
is empty or parses below the current runtime() value rt, seek to the
start and write rt; an unparseable first line raises at float() and
changes nothing. -/
def save_file (file : BackupFile) (rt : ℚ) : BackupFile :=
  match file with
  | BackupFile.missing => BackupFile.missing
  | BackupFile.empty => BackupFile.line rt
  | BackupFile.garbage => BackupFile.garbage
  | BackupFile.line v => if v < rt then BackupFile.line rt else BackupFile.line v

/-- The runtime() value that the file step of save() compares against
and writes: computed only after the internal script.at_repeat() call,
which runs on the state whose backup field reflects the current file
and may move SERVER_RUNTIME through the plausibility re-check. -/
def save_rt (st : GTState) (now : ℚ) (file : BackupFile) : ℚ :=
  runtimeVal (at_repeat { st with backup := readBackup file } now) now

/-- save() from gametime.py: look up the script and call at_repeat()
(which can re-run at_start through the SERVER_RUNTIME < 1000 check),
then update the backup file against the resulting runtime() value;
returns the new in-memory state and the new file contents. -/
def save_full (st : GTState) (now : ℚ) (file : BackupFile) : GTState × BackupFile :=
  (at_repeat { st with backup := readBackup file } now,
   save_file file (save_rt st now file))

/-- A Python value that is either None or a number: models the
possibility that SERVER_RUNTIME holds None instead of a float. -/
inductive PyVal where
  | none : PyVal
  | num : ℚ → PyVal
deriving DecidableEq

/-- Python addition of a value and a float: raises (Option.none) when
the left operand is None. -/
def pyAddFloat : PyVal → ℚ → Option ℚ
  | PyVal.none, _ => Option.none
  | PyVal.num a, b => some (a + b)

/-- runtime(format) with the exception behavior made explicit: the body
adds SERVER_RUNTIME and the wall-clock delta, which raises when
SERVER_RUNTIME is None; no other operation in the body can raise. -/
def runtimeP (server_runtime : PyVal) (start now : ℚ) (format : Bool) :
    Option TimeResult :=
  (pyAddFloat server_runtime (now - start)).map fun r =>
    if format then TimeResult.tup (_format r realDivisors) else TimeResult.num r

/-- uptime(format) with the exception behavior made explicit: its body
only uses the wall clock and SERVER_STARTTIME, so it never raises. -/
def uptimeP (start now : ℚ) (format : Bool) : Option TimeResult :=
  some (if format then TimeResult.tup (_format (now - start) realDivisors)
        else TimeResult.num (now - start))

/-- gametime(format) with the exception behavior made explicit: it calls
runtime() and multiplies by TIMEFACTOR. -/
def gametimeP (server_runtime : PyVal) (start now tf : ℚ) (format : Bool) :
    Option TimeResult :=
  (pyAddFloat server_runtime (now - start)).map fun r =>
    if format then TimeResult.tup (_format (r * tf) gameDivisors)
    else TimeResult.num (r * tf)

/-- gametime_to_realtime without formatting: the game-unit weighted sum
divided by TIMEFACTOR. -/
def gametime_to_realtime (tf secs mins hrs days weeks months yrs : ℚ) : ℚ :=
  (secs + mins * (MIN : ℚ) + hrs * (HOUR : ℚ) + days * (DAY : ℚ)
    + weeks * (WEEK : ℚ) + months * (MONTH : ℚ) + yrs * (YEAR : ℚ)) / tf

/-- realtime_to_gametime without formatting: TIMEFACTOR times the
real-unit weighted sum with calendar-average month and year lengths. -/
def realtime_to_gametime (tf secs mins hrs days weeks months yrs : ℚ) : ℚ :=
  tf * (secs + mins * 60 + hrs * 3600 + days * 86400
    + weeks * 604800 + months * 2628000 + yrs * 31536000)

-- Helper lemmas shared by the claim theorems.

theorem at_start_server_runtime (st : GTState) :
    (at_start st).server_runtime
      = max st.attr_run_time (st.backup.getD st.attr_run_time) := by
  cases hb : st.backup with
  | none => simp [at_start, hb]
  | some b =>
      simp only [at_start, hb, Option.getD_some]
      split_ifs with h
      · exact (max_eq_right h.le).symm
      · exact (max_eq_left (not_lt.mp h)).symm

theorem at_start_preserves_attrs (st : GTState) :
    (at_start st).attr_run_time = st.attr_run_time
    ∧ (at_start st).backup = st.backup := by
  cases hb : st.backup <;> simp [at_start, hb]

theorem formatSpec_cons (s d : ℕ) (ds : List ℕ) :
    formatSpec s (d :: ds) = s / d :: formatSpec (s % d) ds := by
  simp only [formatSpec, List.length_cons, List.range_succ_eq_map,
    List.map_cons, List.map_map, List.cons_append, List.cons.injEq]
  refine ⟨rfl, ?_⟩
  congr 1

theorem formatLoop_eq_formatSpec (s : ℕ) (ds : List ℕ) :
    formatLoop s ds = formatSpec s ds := by
  induction ds generalizing s with
  | nil => simp [formatLoop, formatSpec, residueAfter]
  | cons d ds ih => rw [formatLoop, ih, formatSpec_cons]

theorem formatLoop_length (s : ℕ) (ds : List ℕ) :
    (formatLoop s ds).length = ds.length + 1 := by
  induction ds generalizing s with
  | nil => rfl
  | cons d ds ih => simp [formatLoop, ih]

theorem weightedSum_formatLoop (s : ℕ) (ds : List ℕ) :
    weightedSum ds (formatLoop s ds) = s := by
  induction ds generalizing s with
  | nil => rfl
  | cons d ds ih =>
      simp only [formatLoop, weightedSum, ih]
      rw [Nat.mul_comm]
      exact Nat.div_add_mod s d

theorem rat_floor_eq_floor (q : ℚ) : (Rat.floor q : ℤ) = ⌊q⌋ := by
  rw [Rat.floor_def, Rat.floor_def']

theorem save_file_idem (file : BackupFile) (rt : ℚ) :
    save_file (save_file file rt) rt = save_file file rt := by
  cases file with
  | missing => rfl
  | empty =>
      show save_file (BackupFile.line rt) rt = BackupFile.line rt
      simp [save_file]
  | garbage => rfl
  | line v =>
      simp only [save_file]
      split_ifs with h
      · simp [save_file]
      · simp [save_file, h]

-- Claim theorems.

/-- Claim C1: after at_start, with A the attribute-store run_time value
and B the backup value parsed from the last digit-starting line of the
backup file (absent on any read or parse failure), the in-memory
baseline SERVER_RUNTIME equals max(A, B, 0); it is never smaller than A
nor than a successfully read B. The hypotheses record that both durable
copies are non-negative, which holds for every value the module writes
to them (the initial 0.0, runtime values, and digit-starting parses). -/
theorem C1_at_start_recovers_max (st : GTState)
    (hA : 0 ≤ st.attr_run_time)
    (hB : ∀ b : ℚ, st.backup = some b → 0 ≤ b) :
    (at_start st).server_runtime
      = max (max st.attr_run_time (st.backup.getD 0)) 0
    ∧ st.attr_run_time ≤ (at_start st).server_runtime
    ∧ ∀ b : ℚ, st.backup = some b → b ≤ (at_start st).server_runtime := by
  have hv := at_start_server_runtime st
  cases hb : st.backup with
  | none =>
      rw [hb] at hv
      simp only [Option.getD_none] at hv
      rw [max_self] at hv
      refine ⟨?_, ?_, ?_⟩
      · rw [hv]
        simp only [Option.getD_none]
        rw [max_eq_left hA, max_eq_left hA]
      · rw [hv]
      · intro b hb2
        exact absurd hb2 (by simp)
  | some b =>
      have hb0 : 0 ≤ b := hB b hb
      rw [hb] at hv
      simp only [Option.getD_some] at hv
      refine ⟨?_, ?_, ?_⟩
      · rw [hv]
        simp only [Option.getD_some]
        rw [max_eq_left (le_trans hb0 (le_max_right _ _))]
      · rw [hv]
        exact le_max_left _ _
      · intro b2 hb2
        injection hb2 with h2
        rw [hv, ← h2]
        exact le_max_right _ _

/-- Witness for C1 at the spec example: attribute value 900 and backup
value 200 recover to 900. -/
theorem C1_at_start_recovers_max_witness :
    (at_start ⟨0, 0, 1, 900, 0, some 200⟩).server_runtime = 900 := by
  rw [(C1_at_start_recovers_max ⟨0, 0, 1, 900, 0, some 200⟩ (by norm_num)
    (fun b hb => by injection hb with h; rw [← h]; norm_num)).1]
  norm_num

/-- Claim C2: _format returns a tuple of length n+1 equal elementwise to
the progressive-division tuple of the claim (each element the integer
quotient of the successively reduced int(seconds) by its divisor, the
final element the remaining seconds), and _format(3725, 3600, 60)
evaluates to (1, 2, 5). -/
theorem C2_format_matches_spec (seconds : ℚ) (divisors : List ℕ) :
    _format seconds divisors = formatSpec (truncNat seconds) divisors
    ∧ (_format seconds divisors).length = divisors.length + 1
    ∧ _format 3725 [3600, 60] = [1, 2, 5] :=
  ⟨formatLoop_eq_formatSpec _ _, formatLoop_length _ _, by decide⟩

/-- Counterexample to claim C3 as stated: with baseline 500 (below the
plausibility threshold), start time 0, wall clock 100 and a backup file
holding 500, the internal at_repeat call of save() re-runs at_start on
the attribute it just wrote and raises runtime() by the current uptime
on every call, so the first save writes 700 and an immediately repeated
save with no elapsed wall-clock time writes 800: repeated saves are not
idempotent. -/
theorem C3_save_not_idempotent :
    (save_full ⟨500, 0, 1, 0, 0, Option.none⟩ 100 (BackupFile.line 500)).2
      = BackupFile.line 700
    ∧ (save_full (save_full ⟨500, 0, 1, 0, 0, Option.none⟩ 100
          (BackupFile.line 500)).1 100
        (save_full ⟨500, 0, 1, 0, 0, Option.none⟩ 100 (BackupFile.line 500)).2).2
      = BackupFile.line 800
    ∧ BackupFile.line (800 : ℚ) ≠ BackupFile.line (700 : ℚ) := by
  refine ⟨?_, ?_, ?_⟩ <;>
    norm_num [save_full, save_rt, save_file, at_repeat, at_repeat_check,
      tick_write, at_start, runtimeVal, uptimeVal, readBackup]

/-- Claim C3 as amended: letting rt be the runtime() value after the
internal at_repeat call of save() completes, the backup file is left
unchanged when its recorded value is present and not less than rt;
overwritten with rt when the file is empty or records a smaller value;
left unchanged when it is missing or its first line is unparseable (the
error is swallowed); the recorded value never decreases; and repeated
saves with no elapsed wall-clock time are idempotent on the file
provided SERVER_RUNTIME is at least 1000, so that the plausibility
re-check does not fire. -/
theorem C3_save_update_behavior (st : GTState) (now : ℚ) (file : BackupFile) :
    (∀ v : ℚ, file = BackupFile.line v → save_rt st now file ≤ v
        → (save_full st now file).2 = file)
    ∧ (file = BackupFile.empty
        → (save_full st now file).2 = BackupFile.line (save_rt st now file))
    ∧ (∀ v : ℚ, file = BackupFile.line v → v < save_rt st now file
        → (save_full st now file).2 = BackupFile.line (save_rt st now file))
    ∧ (file = BackupFile.missing → (save_full st now file).2 = BackupFile.missing)
    ∧ (file = BackupFile.garbage → (save_full st now file).2 = BackupFile.garbage)
    ∧ (∀ v w : ℚ, file = BackupFile.line v
        → (save_full st now file).2 = BackupFile.line w → v ≤ w)
    ∧ (1000 ≤ st.server_runtime
        → (save_full (save_full st now file).1 now (save_full st now file).2).2
            = (save_full st now file).2) := by
  refine ⟨?_, ?_, ?_, ?_, ?_, ?_, ?_⟩
  · intro v hf hle
    subst hf
    show save_file (BackupFile.line v) (save_rt st now (BackupFile.line v))
        = BackupFile.line v
    simp only [save_file]
    rw [if_neg (not_lt.mpr hle)]
  · intro hf
    subst hf
    rfl
  · intro v hf hlt
    subst hf
    show save_file (BackupFile.line v) (save_rt st now (BackupFile.line v))
        = BackupFile.line (save_rt st now (BackupFile.line v))
    simp only [save_file]
    rw [if_pos hlt]
  · intro hf
    subst hf
    rfl
  · intro hf
    subst hf
    rfl
  · intro v w hf
    subst hf
    show save_file (BackupFile.line v) (save_rt st now (BackupFile.line v))
        = BackupFile.line w → v ≤ w
    simp only [save_file]
    split_ifs with hvr
    · intro hw
      injection hw with hw2
      rw [← hw2]
      exact hvr.le
    · intro hw
      injection hw with hw2
      rw [← hw2]
  · intro h1000
    have hkey : ∀ s : GTState, s.server_runtime = st.server_runtime →
        at_repeat s now = tick_write s now := by
      intro s hs
      have hc : ¬ (tick_write s now).server_runtime < 1000 := by
        have he : (tick_write s now).server_runtime = st.server_runtime := hs
        rw [he]
        exact not_lt.mpr h1000
      unfold at_repeat at_repeat_check
      exact if_neg hc
    have h1 : at_repeat { st with backup := readBackup file } now
        = tick_write { st with backup := readBackup file } now := hkey _ rfl
    have hsr : (save_full st now file).1.server_runtime = st.server_runtime :=
      (congrArg GTState.server_runtime h1).trans rfl
    have hss : (save_full st now file).1.server_starttime = st.server_starttime :=
      (congrArg GTState.server_starttime h1).trans rfl
    have h2 : at_repeat { (save_full st now file).1 with
            backup := readBackup (save_full st now file).2 } now
        = tick_write { (save_full st now file).1 with
            backup := readBackup (save_full st now file).2 } now := hkey _ hsr
    have hrt : save_rt (save_full st now file).1 now (save_full st now file).2
        = save_rt st now file := by
      unfold save_rt runtimeVal
      rw [h1, h2]
      show (save_full st now file).1.server_runtime
            + (now - (save_full st now file).1.server_starttime)
          = st.server_runtime + (now - st.server_starttime)
      rw [hsr, hss]
    show save_file (save_full st now file).2
        (save_rt (save_full st now file).1 now (save_full st now file).2)
        = (save_full st now file).2
    rw [hrt]
    show save_file (save_file file (save_rt st now file)) (save_rt st now file)
        = save_file file (save_rt st now file)
    exact save_file_idem file (save_rt st now file)

/-- Witness for the amended C3: with baseline 1500 (at or above the
threshold) a repeated save with no elapsed wall-clock time leaves the
file unchanged. -/
theorem C3_save_update_behavior_witness :
    (save_full (save_full ⟨1500, 0, 1, 0, 0, Option.none⟩ 100
        (BackupFile.line 200)).1 100
      (save_full ⟨1500, 0, 1, 0, 0, Option.none⟩ 100 (BackupFile.line 200)).2).2
    = (save_full ⟨1500, 0, 1, 0, 0, Option.none⟩ 100 (BackupFile.line 200)).2 :=
  (C3_save_update_behavior ⟨1500, 0, 1, 0, 0, Option.none⟩ 100
    (BackupFile.line 200)).2.2.2.2.2.2 (by norm_num)

/-- Claim C4: gametime_to_realtime computes the game-unit weighted sum
(month = 4 weeks = 2419200 s, year = 12 months = 29030400 s) divided by
TIMEFACTOR, while realtime_to_gametime computes TIMEFACTOR times the
real-unit weighted sum with calendar-average month (2628000 s) and year
(31536000 s). -/
theorem C4_conversion_formulas (tf secs mins hrs days weeks months yrs : ℚ) :
    gametime_to_realtime tf secs mins hrs days weeks months yrs
      = (secs + mins * 60 + hrs * 3600 + days * 86400 + weeks * 604800
          + months * 2419200 + yrs * 29030400) / tf
    ∧ realtime_to_gametime tf secs mins hrs days weeks months yrs
      = tf * (secs + mins * 60 + hrs * 3600 + days * 86400 + weeks * 604800
          + months * 2628000 + yrs * 31536000) := by
  constructor
  · norm_num [gametime_to_realtime, MIN, HOUR, DAY, WEEK, MONTH, YEAR]
  · rfl

/-- Claim C5: with numeric in-memory state the access functions cannot
raise: the exception-explicit versions return some result, equal to the
total versions, for both settings of the format flag; and the module
initializes SERVER_RUNTIME to 0, the default for missing state. -/
theorem C5_access_functions_total (st : GTState) (now : ℚ) (format : Bool) :
    runtimeP (PyVal.num st.server_runtime) st.server_starttime now format
      = some (runtime st now format)
    ∧ uptimeP st.server_starttime now format = some (uptime st now format)
    ∧ gametimeP (PyVal.num st.server_runtime) st.server_starttime now
        st.timefactor format = some (gametime st now format)
    ∧ SERVER_RUNTIME_init = 0 :=
  ⟨rfl, rfl, rfl, rfl⟩

/-- Claim C6: the weighted sum of the tuple returned by _format, each
quotient times its divisor plus the final remainder, equals the floor of
the seconds input, for non-negative seconds. -/
theorem C6_format_weighted_sum (seconds : ℚ) (h : 0 ≤ seconds)
    (divisors : List ℕ) :
    (weightedSum divisors (_format seconds divisors) : ℤ) = ⌊seconds⌋ := by
  have h1 : weightedSum divisors (_format seconds divisors) = truncNat seconds :=
    weightedSum_formatLoop _ _
  rw [h1]
  unfold truncNat
  rw [rat_floor_eq_floor]
  exact Int.toNat_of_nonneg (Int.le_floor.mpr (by exact_mod_cast h))

/-- Witness for C6: 1 * 3600 + 2 * 60 + 5 = 3725 = floor 3725. -/
theorem C6_format_weighted_sum_witness :
    (weightedSum [3600, 60] (_format 3725 [3600, 60]) : ℤ) = ⌊(3725 : ℚ)⌋ :=
  C6_format_weighted_sum 3725 (by norm_num) [3600, 60]

/-- Claim C7: with a positive TIMEFACTOR, converting s real seconds to
game seconds and back through the seconds argument alone recovers s
exactly (rationals model the float arithmetic, so the tolerance is 0). -/
theorem C7_conversion_roundtrip (tf s : ℚ) (h : 0 < tf) :
    gametime_to_realtime tf (realtime_to_gametime tf s 0 0 0 0 0 0)
      0 0 0 0 0 0 = s := by
  have h0 : tf ≠ 0 := ne_of_gt h
  unfold gametime_to_realtime realtime_to_gametime
  field_simp

/-- Witness for C7 at TIMEFACTOR 2 and input 7. -/
theorem C7_conversion_roundtrip_witness :
    (0 : ℚ) < 2
    ∧ gametime_to_realtime 2 (realtime_to_gametime 2 7 0 0 0 0 0 0)
        0 0 0 0 0 0 = 7 :=
  ⟨by norm_num, C7_conversion_roundtrip 2 7 (by norm_num)⟩

/-- Claim C8: at any wall-clock instant now, the unformatted access
functions return uptime() = now - SERVER_STARTTIME, runtime() =
SERVER_RUNTIME + (now - SERVER_STARTTIME), and gametime() = runtime() *
TIMEFACTOR. -/
theorem C8_access_function_values (st : GTState) (now : ℚ) :
    uptime st now false = TimeResult.num (now - st.server_starttime)
    ∧ runtime st now false
      = TimeResult.num (st.server_runtime + (now - st.server_starttime))
    ∧ gametime st now false
      = TimeResult.num ((st.server_runtime + (now - st.server_starttime))
          * st.timefactor) :=
  ⟨rfl, rfl, rfl⟩

/-- Claim C9: in at_repeat the attribute-store writes happen before the
SERVER_RUNTIME < 1000 check, so when the check triggers at_start the
attribute read back is the runtime value the same tick just wrote: the
resulting baseline is that value possibly raised by the backup file,
never below it, and is independent of the pre-tick stored attribute
value. -/
theorem C9_at_repeat_fresh_write (st : GTState) (now : ℚ)
    (h : st.server_runtime < 1000) :
    (at_repeat st now).attr_run_time
      = st.server_runtime + (now - st.server_starttime)
    ∧ (at_repeat st now).server_runtime
      = max (st.server_runtime + (now - st.server_starttime))
          (st.backup.getD (st.server_runtime + (now - st.server_starttime)))
    ∧ st.server_runtime + (now - st.server_starttime)
        ≤ (at_repeat st now).server_runtime
    ∧ ∀ x : ℚ, (at_repeat { st with attr_run_time := x } now).server_runtime
        = (at_repeat st now).server_runtime := by
  have hc : (tick_write st now).server_runtime < 1000 := h
  have key : at_repeat st now = at_start (tick_write st now) := by
    unfold at_repeat at_repeat_check
    exact if_pos hc
  refine ⟨?_, ?_, ?_, ?_⟩
  · rw [key]
    exact (at_start_preserves_attrs _).1
  · rw [key, at_start_server_runtime]
    rfl
  · rw [key, at_start_server_runtime]
    exact le_max_left _ _
  · intro x
    rfl

/-- Witness for C9: a state with baseline 5 (below 1000), stale
attribute 42, backup 2000 and wall-clock delta 10 recovers to the backup
value 2000, not to anything derived from the stale 42. -/
theorem C9_at_repeat_fresh_write_witness :
    (at_repeat ⟨5, 0, 1, 42, 0, some 2000⟩ 10).server_runtime
      = max ((5 : ℚ) + (10 - 0)) ((some (2000 : ℚ)).getD (5 + (10 - 0))) :=
  (C9_at_repeat_fresh_write ⟨5, 0, 1, 42, 0, some 2000⟩ 10 (by norm_num)).2.1

/-- Claim C10: uptime reads only SERVER_STARTTIME and the wall clock:
two states agreeing on SERVER_STARTTIME give identical uptime results
for either setting of the format flag, whatever their SERVER_RUNTIME,
TIMEFACTOR, attribute-store and backup-file contents. -/
theorem C10_uptime_noninterference (st1 st2 : GTState) (now : ℚ)
    (h : st1.server_starttime = st2.server_starttime) :
    ∀ format : Bool, uptime st1 now format = uptime st2 now format := by
  intro format
  simp [uptime, uptimeVal, h]

/-- Witness for C10: two states differing in every checkpoint-related
field but sharing SERVER_STARTTIME = 0 give the same uptime, formatted
and unformatted. -/
theorem C10_uptime_noninterference_witness :
    (uptime ⟨1, 0, 2, 3, 4, some 5⟩ 10 false
      = uptime ⟨100, 0, 7, 8, 9, Option.none⟩ 10 false)
    ∧ (uptime ⟨1, 0, 2, 3, 4, some 5⟩ 10 true
      = uptime ⟨100, 0, 7, 8, 9, Option.none⟩ 10 true) :=
  ⟨C10_uptime_noninterference _ _ 10 rfl false,
   C10_uptime_noninterference _ _ 10 rfl true⟩
